import Mathlib

/-!
# Adaptive average pooling and profiling-scope instrumentation: a shallow embedding

This file embeds the two source files of the excerpt,
`aten/src/ATen/native/AdaptiveAveragePooling.cpp` and
`torch/csrc/autograd/record_function_ops.cpp`, as executable Lean definitions and
proves the specified properties about them.

Modelling conventions:
* A tensor is its metadata (shape, strides, dtype, layout tag, backend flags) plus a
  flat list of rational element values in logical row-major order.  Exact rational
  arithmetic stands in for floating point.
* `TORCH_CHECK` failures become `Except`-style error values of the inductive `PoolErr`
  (resp. `ProfError`); each check site has its own constructor mirroring its message.
* In-place mutation of a caller-supplied tensor is explicit state passing: each
  operation returns the final state of the mutated tensor, together with whether the
  device kernel was invoked, so that failure paths observably leave the tensor alone.
* The device kernels (`adaptive_avg_pool2d_kernel`, `adaptive_avg_pool2d_backward_kernel`)
  are registered per-device implementations whose bodies are not part of this excerpt;
  the spec's kernel contract says they write the averaged element values into the
  already-planned destination tensor.  They are therefore parameters that may replace
  only the `data` field of the destination.
-/

/-- Element type tag of a tensor (`c10::ScalarType`). -/
inductive ScalarType where
  | Float
  | Double
  | Half
  | Long
deriving DecidableEq, Repr

/-- Memory-format tag (`c10::MemoryFormat`), as reported by `suggest_memory_format`. -/
inductive MemoryFormat where
  | Contiguous
  | ChannelsLast
deriving DecidableEq, Repr

/-- Error values for the pooling operators.  Each constructor corresponds to one
`TORCH_CHECK` site (or to the modelled `resize_` contract) and carries the data the
source interpolates into the message. -/
inductive PoolErr where
  /-- "adaptive_avg_pool2d: output_size must be 2" -/
  | outputSizeLen (n : Nat)
  /-- "Expected 3D or 4D tensor, but got ..." (forward) -/
  | badRank (sizes : List Nat)
  /-- forward: "Expected input to have non-zero size for non-batch dimensions, ...
  with dimension i being empty" -/
  | emptyDim (i : Nat) (sizes : List Nat)
  /-- backward: "Expected grad_output to have non-zero size for non-batch dimensions,
  ... with dimension i being empty" -/
  | emptyDimBwd (i : Nat) (sizes : List Nat)
  /-- backward: "Expected 3D or 4D tensor, but got ..." -/
  | badRankBwd (sizes : List Nat)
  /-- "expected dtype ... but got dtype ..." -/
  | dtypeMismatch (expected got : ScalarType)
  /-- "elements of output_size must be greater than or equal to 0" -/
  | negativeOutputSize (h w : Int)
  /-- resizing a tensor to a size list containing a negative entry -/
  | negativeResize (sizes : List Int)
deriving DecidableEq, Repr

/-- The spec's error taxonomy (§7): every pooling error except a dtype mismatch is a
shape-contract violation. -/
def PoolErr.isShapeViolation : PoolErr → Bool
  | .dtypeMismatch _ _ => false
  | _ => true

/-- The four validation checks named by the spec's validator (§4.1): output-size
length, rank, zero-sized non-batch dimension, dtype agreement. -/
def PoolErr.isValidationErr : PoolErr → Bool
  | .outputSizeLen _ => true
  | .badRank _ => true
  | .emptyDim _ _ => true
  | .emptyDimBwd _ _ => true
  | .badRankBwd _ => true
  | .dtypeMismatch _ _ => true
  | .negativeOutputSize _ _ => false
  | .negativeResize _ => false

/-- Row-major (contiguous) strides of a shape: stride of dimension `i` is the product
of the sizes of all later dimensions. -/
def contiguousStrides (s : List Nat) : List Nat :=
  (List.range s.length).map (fun i => (s.drop (i + 1)).prod)

/-- Strides realising a memory-format hint: channels-last for a rank-4 shape
`[n, c, h, w]` is `[c*h*w, 1, w*c, c]`; anything else is row-major contiguous. -/
def stridesFor : MemoryFormat → List Nat → List Nat
  | .ChannelsLast, [_n, c, h, w] =>
      [c * h * w, 1, w * c, c]
  | _, s => contiguousStrides s

/-- A tensor value: metadata plus flat logical (row-major) element storage. -/
structure Tensor where
  shape : List Nat
  strides : List Nat
  dtype : ScalarType
  /-- the layout reported by `suggest_memory_format()` -/
  memFormat : MemoryFormat
  /-- `is_quantized()` -/
  quantized : Bool
  /-- `is_mkldnn()` -/
  mkldnn : Bool
  /-- `is_xpu()` -/
  xpu : Bool
  data : List ℚ
deriving DecidableEq, Repr

/-- `Tensor::dim()` / `ndimension()`. -/
def Tensor.dim (t : Tensor) : Nat := t.shape.length

/-- `Tensor::size(i)` with Python-style negative indexing. -/
def Tensor.sizeAt (t : Tensor) (i : Int) : Nat :=
  t.shape.getD (if i < 0 then ((t.dim : Int) + i).toNat else i.toNat) 0

/-- `Tensor::numel()`. -/
def Tensor.numel (t : Tensor) : Nat := t.shape.prod

/-- `Tensor::suggest_memory_format()`. -/
def Tensor.suggest_memory_format (t : Tensor) : MemoryFormat := t.memFormat

/-- `Tensor::sizes()` as the signed size list the C++ API exposes. -/
def Tensor.sizes (t : Tensor) : List Int := t.shape.map Int.ofNat

/-- Modelled from the spec: `Tensor::resize_` is core framework code not present in
this excerpt.  The spec's data model (§3) makes a shape "an ordered sequence of
non-negative dimension sizes", so resizing to a size list with a negative entry is a
shape-contract violation; otherwise the tensor takes the new sizes, with strides
realising the requested memory-format hint.  Element values after a resize are
unspecified; the old storage is kept. -/
def Tensor.resize_ (t : Tensor) (sizes : List Int) (fmt : MemoryFormat) :
    Except PoolErr Tensor :=
  if sizes.all (fun x => 0 ≤ x) then
    let s := sizes.map Int.toNat
    .ok { t with shape := s, strides := stridesFor fmt s, memFormat := fmt }
  else
    .error (.negativeResize sizes)

/-- `Tensor::zero_()`: overwrite every element with zero. -/
def Tensor.zero_ (t : Tensor) : Tensor :=
  { t with data := List.replicate t.numel 0 }

/-- `Tensor::as_strided_` (the symint variant at the call site): in-place
reinterpretation of the metadata; the storage is untouched (no copy). -/
def Tensor.as_strided_ (t : Tensor) (sizes strides : List Nat) : Tensor :=
  { t with shape := sizes, strides := strides }

/-- Modelled from the spec: the mean-reduction primitive
`Tensor::mean({-1, -2}, keepdim=true)` is core framework code not present in this
excerpt.  Per the spec (§4.3) it computes the arithmetic mean of the input over its
two trailing spatial axes, keeping those axes present with size 1; the result is a
fresh contiguous tensor. -/
def Tensor.meanHW (t : Tensor) : Tensor :=
  let r := t.shape.length
  let hw := (t.shape.drop (r - 2)).prod
  let lead := (t.shape.take (r - 2)).prod
  let s := t.shape.take (r - 2) ++ [1, 1]
  { t with
    shape := s
    strides := contiguousStrides s
    memFormat := .Contiguous
    data := (List.range lead).map (fun i => ((t.data.drop (i * hw)).take hw).sum / (hw : ℚ)) }

/-- `at::empty({0}, input.options())`: a fresh one-dimensional empty tensor carrying
the input's dtype (and backend options). -/
def emptyLike0 (input : Tensor) : Tensor :=
  { shape := [0]
    strides := [1]
    dtype := input.dtype
    memFormat := .Contiguous
    quantized := false
    mkldnn := false
    xpu := false
    data := [] }

instance {ε α : Type} [DecidableEq ε] [DecidableEq α] : DecidableEq (Except ε α) :=
  fun a b =>
    match a, b with
    | .ok x, .ok y =>
        if h : x = y then .isTrue (by rw [h]) else .isFalse (by simp [h])
    | .error x, .error y =>
        if h : x = y then .isTrue (by rw [h]) else .isFalse (by simp [h])
    | .ok _, .error _ => .isFalse (by simp)
    | .error _, .ok _ => .isFalse (by simp)

/-- Outcome of a forward call: the `TORCH_CHECK` result, the final state of the
caller-supplied `output` tensor, and whether the device kernel was invoked. -/
structure FwdResult where
  res : Except PoolErr Unit
  output : Tensor
  kernelInvoked : Bool
deriving DecidableEq, Repr

/-- `adaptive_avg_pool2d_out_cpu_template`, parameterised by the registered device
kernel's data computation (`adaptive_avg_pool2d_kernel`), which fills the element
values of the already-resized output. -/
def adaptive_avg_pool2d_out_cpu_template
    (kernelData : Tensor → Tensor → List Int → List ℚ)
    (output input : Tensor) (output_size : List Int) : FwdResult :=
  if output_size.length ≠ 2 then
    ⟨.error (.outputSizeLen output_size.length), output, false⟩
  else
    -- int64_t ndim = input.dim();
    if ¬(input.dim = 3 ∨ input.dim = 4) then
      ⟨.error (.badRank input.shape), output, false⟩
    -- for (const auto i : {-2, -1}) TORCH_CHECK(input.size(i) > 0, ...)
    else if input.sizeAt (-2) = 0 then
      ⟨.error (.emptyDim (input.dim - 2) input.shape), output, false⟩
    else if input.sizeAt (-1) = 0 then
      ⟨.error (.emptyDim (input.dim - 1) input.shape), output, false⟩
    else if input.dtype ≠ output.dtype then
      ⟨.error (.dtypeMismatch input.dtype output.dtype), output, false⟩
    else
      -- int64_t channels = input.size(-3);
      -- int64_t output_height = output_size[0]; int64_t output_width = output_size[1];
      match
        (if input.dim = 3 then
          output.resize_
            [(input.sizeAt (-3) : Int), output_size.getD 0 0, output_size.getD 1 0]
            .Contiguous
        else
          -- int64_t nbatch = input.size(0);
          output.resize_
            [(input.sizeAt 0 : Int), (input.sizeAt (-3) : Int), output_size.getD 0 0,
              output_size.getD 1 0]
            input.suggest_memory_format) with
      | .error e => ⟨.error e, output, false⟩
      | .ok out' =>
        if out'.numel = 0 then
          ⟨.ok (), out', false⟩
        else
          ⟨.ok (), { out' with data := kernelData out' input output_size }, true⟩

/-- `adaptive_avg_pool2d_out_cpu` (the `Into` entry point): forwards to the template
with the caller-supplied output tensor. -/
def adaptive_avg_pool2d_out_cpu
    (kernelData : Tensor → Tensor → List Int → List ℚ)
    (input : Tensor) (output_size : List Int) (output : Tensor) : FwdResult :=
  adaptive_avg_pool2d_out_cpu_template kernelData output input output_size

/-- `adaptive_avg_pool2d_cpu` (the allocating entry point): runs the template on a
fresh `at::empty({0}, input.options())` tensor. -/
def adaptive_avg_pool2d_cpu
    (kernelData : Tensor → Tensor → List Int → List ℚ)
    (input : Tensor) (output_size : List Int) : FwdResult :=
  adaptive_avg_pool2d_out_cpu_template kernelData (emptyLike0 input) input output_size

/-- Outcome of a backward call: the `TORCH_CHECK` result, the final state of the
caller-supplied `grad_input` tensor, and — when the device kernel was invoked — the
exact state of `grad_input` handed to the kernel. -/
structure BwdResult where
  res : Except PoolErr Unit
  grad_input : Tensor
  kernelArg : Option Tensor
deriving DecidableEq, Repr

/-- `adaptive_avg_pool2d_backward_out_cpu_template`, parameterised by the registered
device kernel's data computation (`adaptive_avg_pool2d_backward_kernel`), which
accumulates gradient contributions into the zero-filled `grad_input`. -/
def adaptive_avg_pool2d_backward_out_cpu_template
    (kernelData : Tensor → Tensor → List ℚ)
    (grad_input grad_output input : Tensor) : BwdResult :=
  -- int64_t ndim = grad_output.ndimension();
  -- for (const auto i : c10::irange(1, ndim)) TORCH_CHECK(grad_output.size(i) > 0, ...)
  match (List.range' 1 (grad_output.dim - 1)).find?
      (fun i => grad_output.shape.getD i 0 = 0) with
  | some i => ⟨.error (.emptyDimBwd i grad_output.shape), grad_input, none⟩
  | none =>
    if ¬(grad_output.dim = 3 ∨ grad_output.dim = 4) then
      -- note: the source prints input.sizes() in this message
      ⟨.error (.badRankBwd input.shape), grad_input, none⟩
    else if input.dtype ≠ grad_output.dtype then
      ⟨.error (.dtypeMismatch input.dtype grad_output.dtype), grad_input, none⟩
    else if input.dtype ≠ grad_input.dtype then
      ⟨.error (.dtypeMismatch input.dtype grad_input.dtype), grad_input, none⟩
    else
      match grad_input.resize_ input.sizes input.suggest_memory_format with
      | .error e => ⟨.error e, grad_input, none⟩
      | .ok g =>
        let g := g.zero_
        ⟨.ok (), { g with data := kernelData g grad_output }, some g⟩

/-- `adaptive_avg_pool2d_backward_out_cpu` (the `Into` entry point). -/
def adaptive_avg_pool2d_backward_out_cpu
    (kernelData : Tensor → Tensor → List ℚ)
    (grad_input grad_output input : Tensor) : BwdResult :=
  adaptive_avg_pool2d_backward_out_cpu_template kernelData grad_input grad_output input

/-- `adaptive_avg_pool2d_backward_cpu` (the allocating entry point). -/
def adaptive_avg_pool2d_backward_cpu
    (kernelData : Tensor → Tensor → List ℚ)
    (grad_output input : Tensor) : BwdResult :=
  adaptive_avg_pool2d_backward_out_cpu_template kernelData (emptyLike0 input)
    grad_output input

/-- `adaptive_avg_pool2d_symint` (the dispatching public operator), parameterised by
the two external backends it can delegate to: `at::mkldnn_adaptive_avg_pool2d` and
the generic `_adaptive_avg_pool2d_symint` dispatch (neither body is part of this
excerpt).  The mobile XNNPACK subpath is compiled out (`C10_MOBILE` undefined). -/
def adaptive_avg_pool2d_symint
    (mkldnnImpl genericImpl : Tensor → List Int → Except PoolErr Tensor)
    (input : Tensor) (output_size : List Int) : Except PoolErr Tensor :=
  if output_size.length ≠ 2 then
    .error (.outputSizeLen output_size.length)
  else if ¬(0 ≤ output_size.getD 0 0 ∧ 0 ≤ output_size.getD 1 0) then
    .error (.negativeOutputSize (output_size.getD 0 0) (output_size.getD 1 0))
  else if input.mkldnn then
    mkldnnImpl input output_size
  else if input.quantized = false ∧ output_size.getD 0 0 = 1 ∧ output_size.getD 1 0 = 1
      ∧ input.xpu = false then
    -- in this case, adaptive pooling is just computing mean over hw dimensions
    let out := input.meanHW
    if input.suggest_memory_format = .ChannelsLast then
      -- assert ndim == 4, since ndim = 3 doesn't give channels_last
      let n := input.sizeAt 0
      let c := input.sizeAt 1
      .ok (out.as_strided_ [n, c, 1, 1] [c, 1, c, c])
    else
      .ok out
  else
    genericImpl input output_size

/-! ## Profiling-scope instrumentation (`record_function_ops.cpp`) -/

/-- `at::RecordScope` — only the user scope is exercised here. -/
inductive RecordScope where
  | USER_SCOPE
deriving DecidableEq, Repr

/-- `at::RecordFunction`: a profiling scope.  `before(name)` tags it with a name and
starts it; `end()` marks it ended. -/
structure RecordFunction where
  scope : RecordScope
  name : String
  ended : Bool
deriving DecidableEq, Repr

/-- Errors raised by the instrumentation layer or carried by a wrapped future. -/
inductive ProfError where
  /-- `TORCH_CHECK(record_function_ != nullptr, "record_function_ must be set via enter!")` -/
  | notEntered
  /-- `TORCH_INTERNAL_ASSERT(holder.defined(), "Undefined RecordFunction holder. ...")` -/
  | undefinedHolder
  /-- an error carried by a wrapped asynchronous value (opaque payload) -/
  | wrapped (msg : String)
deriving DecidableEq, Repr

/-- `torch::autograd::profiler::RecordFunctionHolder`: owns an optional
`RecordFunction` (the `unique_ptr` is `none` until `enter` runs). -/
structure RecordFunctionHolder where
  record_function_ : Option RecordFunction
deriving DecidableEq, Repr

/-- `RecordFunctionHolder::enter`: allocate a fresh user-scope `RecordFunction` and
call `before(name)` on it. -/
def RecordFunctionHolder.enter (_h : RecordFunctionHolder) (name : String) :
    RecordFunctionHolder :=
  { record_function_ := some { scope := .USER_SCOPE, name := name, ended := false } }

/-- `RecordFunctionHolder::exit`: `TORCH_CHECK` that `enter` ran, then `end()` the
scope.  The result is the holder's state after the call. -/
def RecordFunctionHolder.exit (h : RecordFunctionHolder) :
    Except ProfError RecordFunctionHolder :=
  match h.record_function_ with
  | none => .error .notEntered
  | some rf => .ok { record_function_ := some { rf with ended := true } }

/-- `record_function_enter`: make a fresh holder and `enter` it. -/
def record_function_enter (name : String) : RecordFunctionHolder :=
  RecordFunctionHolder.mk none |>.enter name

/-- `record_function_exit`. -/
def record_function_exit (holder : RecordFunctionHolder) :
    Except ProfError RecordFunctionHolder :=
  holder.exit

/-- The continuation installed by `_call_end_callbacks_on_fut` (the lambda
`futureProfilingFunc`), run once the wrapped future has resolved with `fut` (a value
or an error).  It asserts the captured holder is defined, calls `exit()` on it, and
returns `fut.value()` — which re-raises the wrapped error, if any.  The returned pair
is (what the profiled future resolves with, the holder's state afterwards); a thrown
error becomes the profiled future's error, per `Future::then` semantics.
`wrapPropagateTLSState` only snapshots thread-local state around the call and is
semantically transparent here. -/
def futureProfilingFunc {α : Type} (holder : Option RecordFunctionHolder)
    (fut : Except ProfError α) : Except ProfError α × Option RecordFunctionHolder :=
  match holder with
  | none => (.error .undefinedHolder, none)
  | some h =>
    match h.exit with
    | .error e => (.error e, some h)
    | .ok h' => (fut, some h')

/-- `_call_end_callbacks_on_fut`: attach `futureProfilingFunc` to the future with
`then`.  Since the embedding works with already-resolved outcomes, the profiled
future's outcome (and the holder's final state) is the continuation's result. -/
def _call_end_callbacks_on_fut {α : Type} (holder : Option RecordFunctionHolder)
    (fut : Except ProfError α) : Except ProfError α × Option RecordFunctionHolder :=
  futureProfilingFunc holder fut

/-! ## Sample values used by witness theorems -/

/-- A trivial stand-in for the forward device kernel. -/
def kZero : Tensor → Tensor → List Int → List ℚ := fun _ _ _ => []

/-- A trivial stand-in for the backward device kernel. -/
def bkZero : Tensor → Tensor → List ℚ := fun _ _ => []

/-- A rank-3 float tensor of shape [2, 2, 2]. -/
def sampleIn3 : Tensor :=
  { shape := [2, 2, 2], strides := [4, 2, 1], dtype := .Float, memFormat := .Contiguous,
    quantized := false, mkldnn := false, xpu := false, data := [1, 2, 3, 4, 5, 6, 7, 8] }

/-- A rank-4 float tensor of shape [1, 2, 2, 2]. -/
def sampleIn4 : Tensor :=
  { shape := [1, 2, 2, 2], strides := [8, 4, 2, 1], dtype := .Float,
    memFormat := .Contiguous, quantized := false, mkldnn := false, xpu := false,
    data := [1, 2, 3, 4, 5, 6, 7, 8] }

/-- A rank-5 float tensor whose channel dimension is empty. -/
def sampleGo5 : Tensor :=
  { shape := [2, 0, 4, 4, 4], strides := [0, 0, 0, 0, 0], dtype := .Float,
    memFormat := .Contiguous, quantized := false, mkldnn := false, xpu := false,
    data := [] }

/-- A rank-4 float grad_output with an empty channel dimension but non-empty
trailing spatial dimensions. -/
def cexGo : Tensor :=
  { shape := [2, 0, 3, 3], strides := [0, 9, 3, 1], dtype := .Float,
    memFormat := .Contiguous, quantized := false, mkldnn := false, xpu := false,
    data := [] }

/-- A rank-4 float input with all dimensions non-empty. -/
def cexIn : Tensor :=
  { shape := [2, 5, 3, 3], strides := [45, 9, 3, 1], dtype := .Float,
    memFormat := .Contiguous, quantized := false, mkldnn := false, xpu := false,
    data := [] }

/-- A rank-4 channels-last float tensor of shape [1, 2, 2, 2]. -/
def sampleCL4 : Tensor :=
  { shape := [1, 2, 2, 2], strides := [8, 1, 4, 2], dtype := .Float,
    memFormat := .ChannelsLast, quantized := false, mkldnn := false, xpu := false,
    data := [1, 2, 3, 4, 5, 6, 7, 8] }

/-- A trivial stand-in for the external mkldnn and generic pooling backends the
dispatcher can delegate to. -/
def backendId : Tensor → List Int → Except PoolErr Tensor := fun t _ => .ok t

/-- The gradient tensor as the backward template plans it just before the kernel
call: the caller's `grad_input` resized to the input's shape with the input's
suggested memory format, then zero-filled. -/
def plannedGradInput (gi input : Tensor) : Tensor :=
  Tensor.zero_
    { gi with
        shape := input.shape
        strides := stridesFor input.memFormat input.shape
        memFormat := input.memFormat }

/-! ## General lemmas about the embedding -/

theorem Tensor.resize_natCast (t : Tensor) (xs : List Nat) (fmt : MemoryFormat) :
    t.resize_ (xs.map Int.ofNat) fmt =
      .ok { t with shape := xs, strides := stridesFor fmt xs, memFormat := fmt } := by
  unfold Tensor.resize_
  rw [if_pos]
  · have hx : (xs.map Int.ofNat).map Int.toNat = xs := by
      rw [List.map_map]
      exact List.map_id'' (fun a => rfl) xs
    simp only [hx]
  · simp [List.all_eq_true]

/-- Running the forward template on arguments that pass every validation check:
the output is resized to the planned shape (with the planned memory format) and the
kernel runs exactly when the planned element count is non-zero. -/
theorem fwd_template_run
    (k : Tensor → Tensor → List Int → List ℚ) (output input : Tensor) (oh ow : ℕ)
    (hdim : input.dim = 3 ∨ input.dim = 4)
    (h2 : input.sizeAt (-2) ≠ 0) (h1 : input.sizeAt (-1) ≠ 0)
    (hdt : input.dtype = output.dtype) :
    adaptive_avg_pool2d_out_cpu_template k output input [(oh : Int), (ow : Int)] =
      (let fmt := if input.dim = 3 then MemoryFormat.Contiguous else input.memFormat
       let s := if input.dim = 3 then [input.sizeAt (-3), oh, ow]
                else [input.sizeAt 0, input.sizeAt (-3), oh, ow]
       let out' : Tensor :=
         { output with shape := s, strides := stridesFor fmt s, memFormat := fmt }
       if s.prod = 0 then ⟨.ok (), out', false⟩
       else ⟨.ok (), { out' with data := k out' input [(oh : Int), (ow : Int)] }, true⟩) := by
  unfold adaptive_avg_pool2d_out_cpu_template
  rw [if_neg (by simp)]
  rw [if_neg (not_not_intro hdim)]
  rw [if_neg h2, if_neg h1]
  rw [if_neg (not_not_intro hdt)]
  rcases hdim with h3 | h4
  · rw [if_pos h3]
    have hs : ([(input.sizeAt (-3) : Int), (oh : Nat), (ow : Nat)]) =
        ([input.sizeAt (-3), oh, ow].map Int.ofNat) := by simp [Int.ofNat_eq_natCast]
    simp only [List.getD_cons_zero, List.getD_cons_succ]
    rw [hs, Tensor.resize_natCast]
    simp only [if_pos h3]
    rfl
  · have h3 : ¬ input.dim = 3 := by omega
    rw [if_neg h3]
    have hs : ([(input.sizeAt 0 : Int), (input.sizeAt (-3) : Int), (oh : Nat), (ow : Nat)]) =
        ([input.sizeAt 0, input.sizeAt (-3), oh, ow].map Int.ofNat) := by
      simp [Int.ofNat_eq_natCast]
    simp only [List.getD_cons_zero, List.getD_cons_succ]
    rw [hs, Tensor.resize_natCast]
    simp only [if_neg h3]
    rfl

/-- A list of length two is an explicit two-element list. -/
theorem list_len2 {α : Type} {l : List α} (h : l.length = 2) :
    ∃ a b, l = [a, b] := by
  rcases l with _ | ⟨a, l⟩
  · simp at h
  rcases l with _ | ⟨b, l⟩
  · simp at h
  rcases l with _ | ⟨c, l⟩
  · exact ⟨a, b, rfl⟩
  · simp at h

/-- A list of length four is an explicit four-element list. -/
theorem list_len4 {α : Type} {l : List α} (h : l.length = 4) :
    ∃ a b c d, l = [a, b, c, d] := by
  rcases l with _ | ⟨a, l⟩
  · simp at h
  rcases l with _ | ⟨b, l⟩
  · simp at h
  rcases l with _ | ⟨c, l⟩
  · simp at h
  rcases l with _ | ⟨d, l⟩
  · simp at h
  rcases l with _ | ⟨e, l⟩
  · exact ⟨a, b, c, d, rfl⟩
  · simp at h

/-- Exhaustive case analysis of the forward template: either some check fails and the
result is an error with the caller's output untouched and no kernel call, or every
check passes and the `TORCH_CHECK` result is success. -/
theorem fwd_template_cases
    (k : Tensor → Tensor → List Int → List ℚ) (output input : Tensor) (os : List Int) :
    (∃ e, adaptive_avg_pool2d_out_cpu_template k output input os =
        ⟨.error e, output, false⟩) ∨
    (adaptive_avg_pool2d_out_cpu_template k output input os).res = .ok () := by
  unfold adaptive_avg_pool2d_out_cpu_template
  split_ifs <;> try exact Or.inl ⟨_, rfl⟩
  all_goals
    split
    · exact Or.inl ⟨_, rfl⟩
    · split
      · exact Or.inr rfl
      · exact Or.inr rfl

/-- Exhaustive case analysis of the backward template: either some check fails and
the result is an error with the caller's grad_input untouched and no kernel call, or
every check passes, grad_input is resized to the input's shape with the input's
suggested memory format, zero-filled, and handed to the kernel. -/
theorem bwd_template_cases
    (bk : Tensor → Tensor → List ℚ) (gi go input : Tensor) :
    (∃ e, adaptive_avg_pool2d_backward_out_cpu_template bk gi go input =
        ⟨.error e, gi, none⟩) ∨
    (adaptive_avg_pool2d_backward_out_cpu_template bk gi go input =
      ⟨.ok (), { plannedGradInput gi input with
                   data := bk (plannedGradInput gi input) go },
        some (plannedGradInput gi input)⟩) := by
  unfold adaptive_avg_pool2d_backward_out_cpu_template
  split
  · exact Or.inl ⟨_, rfl⟩
  · split_ifs <;> try exact Or.inl ⟨_, rfl⟩
    have hres : gi.resize_ input.sizes input.suggest_memory_format =
        .ok
          { gi with
              shape := input.shape
              strides := stridesFor input.memFormat input.shape
              memFormat := input.memFormat } :=
      Tensor.resize_natCast gi input.shape input.memFormat
    rw [hres]
    exact Or.inr rfl

/-! ## The claims -/

/-- C1: for every valid forward call of `adaptive_avg_pool2d_cpu` (the allocating
entry point) or `adaptive_avg_pool2d_out_cpu` (the `Into` entry point) — input of
rank 3 or 4, both trailing spatial dimensions non-zero, `output_size = [outH, outW]`
with `outH, outW ≥ 0`, and (for the `Into` form) matching dtypes — the call succeeds
and the produced output tensor has shape `[C, outH, outW]` for rank-3 input and
`[N, C, outH, outW]` for rank-4 input, where `C = input.size(-3)` and
`N = input.size(0)`. -/
theorem adaptive_avg_pool2d_output_shape
    (k : Tensor → Tensor → List Int → List ℚ) (input output : Tensor) (oh ow : ℕ)
    (hdim : input.dim = 3 ∨ input.dim = 4)
    (h2 : input.sizeAt (-2) ≠ 0) (h1 : input.sizeAt (-1) ≠ 0)
    (hdt : input.dtype = output.dtype) :
    ((adaptive_avg_pool2d_out_cpu k input [(oh : Int), (ow : Int)] output).res = .ok () ∧
      (adaptive_avg_pool2d_out_cpu k input [(oh : Int), (ow : Int)] output).output.shape =
        if input.dim = 3 then [input.sizeAt (-3), oh, ow]
        else [input.sizeAt 0, input.sizeAt (-3), oh, ow]) ∧
    ((adaptive_avg_pool2d_cpu k input [(oh : Int), (ow : Int)]).res = .ok () ∧
      (adaptive_avg_pool2d_cpu k input [(oh : Int), (ow : Int)]).output.shape =
        if input.dim = 3 then [input.sizeAt (-3), oh, ow]
        else [input.sizeAt 0, input.sizeAt (-3), oh, ow]) := by
  have h := fwd_template_run k output input oh ow hdim h2 h1 hdt
  have h' := fwd_template_run k (emptyLike0 input) input oh ow hdim h2 h1 rfl
  unfold adaptive_avg_pool2d_out_cpu adaptive_avg_pool2d_cpu
  rw [h, h']
  rcases hdim with hd | hd
  · by_cases hp : input.sizeAt (-3) = 0 ∨ oh = 0 ∨ ow = 0 <;> simp [hd, hp]
  · have hd3 : ¬ input.dim = 3 := by omega
    by_cases hp : input.sizeAt 0 = 0 ∨ input.sizeAt (-3) = 0 ∨ oh = 0 ∨ ow = 0 <;>
      simp [hd3, hp]

/-- C1 witness: a concrete valid rank-3 call producing the claimed shape. -/
theorem adaptive_avg_pool2d_output_shape_witness :
    (adaptive_avg_pool2d_cpu kZero sampleIn3 [((2 : ℕ) : Int), ((2 : ℕ) : Int)]).res
        = .ok () ∧
    (adaptive_avg_pool2d_cpu kZero sampleIn3
        [((2 : ℕ) : Int), ((2 : ℕ) : Int)]).output.shape = [2, 2, 2] := by
  have h := adaptive_avg_pool2d_output_shape kZero sampleIn3 (emptyLike0 sampleIn3) 2 2
    (Or.inl rfl) (by decide) (by decide) rfl
  exact ⟨h.2.1, by simpa using h.2.2⟩

/-- C5: a valid forward call whose requested output size has `outH = 0` or
`outW = 0` succeeds, returns a correctly shaped output with zero elements, and never
invokes the pooling kernel. -/
theorem adaptive_avg_pool2d_zero_size_fast_exit
    (k : Tensor → Tensor → List Int → List ℚ) (input output : Tensor) (oh ow : ℕ)
    (hdim : input.dim = 3 ∨ input.dim = 4)
    (h2 : input.sizeAt (-2) ≠ 0) (h1 : input.sizeAt (-1) ≠ 0)
    (hdt : input.dtype = output.dtype)
    (hz : oh = 0 ∨ ow = 0) :
    (adaptive_avg_pool2d_out_cpu_template k output input [(oh : Int), (ow : Int)]).res
        = .ok () ∧
    (adaptive_avg_pool2d_out_cpu_template k output input
        [(oh : Int), (ow : Int)]).output.shape =
      (if input.dim = 3 then [input.sizeAt (-3), oh, ow]
       else [input.sizeAt 0, input.sizeAt (-3), oh, ow]) ∧
    (adaptive_avg_pool2d_out_cpu_template k output input
        [(oh : Int), (ow : Int)]).output.numel = 0 ∧
    (adaptive_avg_pool2d_out_cpu_template k output input
        [(oh : Int), (ow : Int)]).kernelInvoked = false := by
  have h := fwd_template_run k output input oh ow hdim h2 h1 hdt
  rw [h]
  rcases hdim with hd | hd
  · have hp : input.sizeAt (-3) = 0 ∨ oh = 0 ∨ ow = 0 := Or.inr hz
    simp [hd, hp, Tensor.numel]
  · have hd3 : ¬ input.dim = 3 := by omega
    have hp : input.sizeAt 0 = 0 ∨ input.sizeAt (-3) = 0 ∨ oh = 0 ∨ ow = 0 :=
      Or.inr (Or.inr hz)
    simp [hd3, hp, Tensor.numel]

/-- C5 witness: a concrete valid call with `outW = 0` — success, empty output, no
kernel invocation. -/
theorem adaptive_avg_pool2d_zero_size_fast_exit_witness :
    (adaptive_avg_pool2d_out_cpu_template kZero (emptyLike0 sampleIn4) sampleIn4
        [((2 : ℕ) : Int), ((0 : ℕ) : Int)]).output.numel = 0 ∧
    (adaptive_avg_pool2d_out_cpu_template kZero (emptyLike0 sampleIn4) sampleIn4
        [((2 : ℕ) : Int), ((0 : ℕ) : Int)]).kernelInvoked = false := by
  have h := adaptive_avg_pool2d_zero_size_fast_exit kZero sampleIn4 (emptyLike0 sampleIn4)
    2 0 (Or.inr rfl) (by decide) (by decide) rfl (Or.inr rfl)
  exact ⟨h.2.2.1, h.2.2.2⟩

/-- C3: every backward call that passes validation resizes the gradient tensor to
exactly the original input's shape with the input's preferred memory layout and
zero-fills it before the backward kernel is invoked; hence the returned
`grad_input`'s shape equals the input's shape on every successful backward call. -/
theorem adaptive_avg_pool2d_backward_resize_zero
    (bk : Tensor → Tensor → List ℚ) (grad_input grad_output input : Tensor)
    (hok : (adaptive_avg_pool2d_backward_out_cpu_template bk grad_input grad_output
        input).res = .ok ()) :
    (adaptive_avg_pool2d_backward_out_cpu_template bk grad_input grad_output
        input).grad_input.shape = input.shape ∧
    ∃ g, (adaptive_avg_pool2d_backward_out_cpu_template bk grad_input grad_output
          input).kernelArg = some g ∧
      g.shape = input.shape ∧ g.memFormat = input.memFormat ∧
      g.data = List.replicate g.numel 0 := by
  rcases bwd_template_cases bk grad_input grad_output input with ⟨e, he⟩ | heq
  · rw [he] at hok
    simp at hok
  · refine ⟨?_, plannedGradInput grad_input input, ?_, rfl, rfl, rfl⟩
    · rw [heq]
      rfl
    · rw [heq]

/-- C3 witness: a concrete successful backward call; the kernel receives a
zero-filled tensor of the input's shape and layout, and the produced gradient has
the input's shape. -/
theorem adaptive_avg_pool2d_backward_resize_zero_witness :
    (adaptive_avg_pool2d_backward_out_cpu_template bkZero (emptyLike0 sampleIn3)
        sampleIn3 sampleIn3).grad_input.shape = sampleIn3.shape ∧
    ∃ g, (adaptive_avg_pool2d_backward_out_cpu_template bkZero (emptyLike0 sampleIn3)
          sampleIn3 sampleIn3).kernelArg = some g ∧
      g.shape = sampleIn3.shape ∧ g.memFormat = sampleIn3.memFormat ∧
      g.data = List.replicate g.numel 0 :=
  adaptive_avg_pool2d_backward_resize_zero bkZero (emptyLike0 sampleIn3) sampleIn3
    sampleIn3 (by decide)

/-- C7: whenever a forward or backward call fails one of the four validation checks
(output-size length, rank, zero-sized non-batch dimension, dtype mismatch), the
caller-supplied output resp. grad_input tensor is returned completely unchanged and
the kernel is never invoked. -/
theorem failed_validation_leaves_tensors_unchanged :
    (∀ (k : Tensor → Tensor → List Int → List ℚ) (output input : Tensor)
        (os : List Int) (e : PoolErr),
      (adaptive_avg_pool2d_out_cpu_template k output input os).res = .error e →
      e.isValidationErr = true →
      (adaptive_avg_pool2d_out_cpu_template k output input os).output = output ∧
      (adaptive_avg_pool2d_out_cpu_template k output input os).kernelInvoked = false) ∧
    (∀ (bk : Tensor → Tensor → List ℚ) (gi go input : Tensor) (e : PoolErr),
      (adaptive_avg_pool2d_backward_out_cpu_template bk gi go input).res = .error e →
      e.isValidationErr = true →
      (adaptive_avg_pool2d_backward_out_cpu_template bk gi go input).grad_input = gi ∧
      (adaptive_avg_pool2d_backward_out_cpu_template bk gi go input).kernelArg
        = none) := by
  constructor
  · intro k output input os e he _
    rcases fwd_template_cases k output input os with ⟨e', h⟩ | h
    · rw [h]
      exact ⟨rfl, rfl⟩
    · rw [h] at he
      cases he
  · intro bk gi go input e he _
    rcases bwd_template_cases bk gi go input with ⟨e', h⟩ | h
    · rw [h]
      exact ⟨rfl, rfl⟩
    · rw [h] at he
      cases he

/-- C7 witness: a forward call failing the output-size-length check leaves the
supplied output untouched and never calls the kernel. -/
theorem failed_validation_leaves_tensors_unchanged_witness :
    (adaptive_avg_pool2d_out_cpu_template kZero (emptyLike0 sampleIn3) sampleIn3
        [1]).output = emptyLike0 sampleIn3 ∧
    (adaptive_avg_pool2d_out_cpu_template kZero (emptyLike0 sampleIn3) sampleIn3
        [1]).kernelInvoked = false :=
  failed_validation_leaves_tensors_unchanged.1 kZero (emptyLike0 sampleIn3) sampleIn3
    [1] (.outputSizeLen 1) (by decide) (by decide)

/-- C10: the backward pass checks every non-batch dimension of `grad_output` (indices
1 through ndim-1) for emptiness, and does so before the rank check: a `grad_output`
of any rank with a zero-sized non-batch dimension fails with the empty-dimension
error, never with the rank error. -/
theorem backward_empty_dim_check_covers_nonbatch
    (bk : Tensor → Tensor → List ℚ) (gi go input : Tensor)
    (h : ∃ i, 1 ≤ i ∧ i < go.dim ∧ go.shape.getD i 0 = 0) :
    ∃ j, 1 ≤ j ∧ j < go.dim ∧
      adaptive_avg_pool2d_backward_out_cpu_template bk gi go input =
        ⟨.error (.emptyDimBwd j go.shape), gi, none⟩ := by
  obtain ⟨i, h1, h2, h3⟩ := h
  have hmem : i ∈ List.range' 1 (go.dim - 1) := by
    rw [List.mem_range'_1]
    omega
  cases hfind : (List.range' 1 (go.dim - 1)).find?
      (fun i => go.shape.getD i 0 = 0) with
  | none =>
    exfalso
    have := List.find?_eq_none.1 hfind i hmem
    simp only [decide_eq_true_eq] at this
    exact this h3
  | some j =>
    have hjmem := List.mem_of_find?_eq_some hfind
    rw [List.mem_range'_1] at hjmem
    refine ⟨j, by omega, by omega, ?_⟩
    unfold adaptive_avg_pool2d_backward_out_cpu_template
    rw [hfind]

/-- C10 witness: a rank-5 `grad_output` with a zero-sized channel dimension fails
with the empty-dimension error (dimension 1), not the rank error. -/
theorem backward_empty_dim_check_covers_nonbatch_witness :
    ∃ j, 1 ≤ j ∧ j < sampleGo5.dim ∧
      adaptive_avg_pool2d_backward_out_cpu_template bkZero (emptyLike0 sampleIn3)
          sampleGo5 sampleIn3 =
        ⟨.error (.emptyDimBwd j sampleGo5.shape), emptyLike0 sampleIn3, none⟩ :=
  backward_empty_dim_check_covers_nonbatch bkZero (emptyLike0 sampleIn3) sampleGo5
    sampleIn3 ⟨1, by decide, by decide, by decide⟩

/-- C9: `exit()` on a holder on which `enter()` never ran (its `record_function_`
is still null) fails the `TORCH_CHECK` precondition; after `enter(name)`, `exit()`
succeeds and ends the scope. -/
theorem record_function_exit_requires_enter :
    (RecordFunctionHolder.mk none).exit = .error .notEntered ∧
    ∀ (h : RecordFunctionHolder) (name : String),
      (h.enter name).exit =
        .ok { record_function_ :=
                some { scope := .USER_SCOPE, name := name, ended := true } } :=
  ⟨rfl, fun _ _ => rfl⟩

/-- C8: the continuation attached by `_call_end_callbacks_on_fut` to a resolved
future, for a holder in the entered state, first calls `exit()` on the holder (its
record function ends) and then resolves the returned future with exactly the original
outcome — a value passes through unchanged and an error is re-raised unchanged. -/
theorem call_end_callbacks_exits_then_propagates {α : Type} (rf : RecordFunction)
    (fut : Except ProfError α) :
    _call_end_callbacks_on_fut (some ⟨some rf⟩) fut =
      (fut, some ⟨some { rf with ended := true }⟩) := by
  cases fut <;> rfl

/-- Failure characterization of the backward template: the call errors exactly when
some non-batch dimension of grad_output is empty, grad_output's rank is not 3 or 4,
or one of the dtype agreements fails. -/
theorem bwd_error_iff (bk : Tensor → Tensor → List ℚ) (gi go input : Tensor) :
    (∃ e, (adaptive_avg_pool2d_backward_out_cpu_template bk gi go input).res
        = .error e) ↔
      ((∃ i, 1 ≤ i ∧ i < go.dim ∧ go.shape.getD i 0 = 0) ∨
       ¬(go.dim = 3 ∨ go.dim = 4) ∨
       input.dtype ≠ go.dtype ∨ input.dtype ≠ gi.dtype) := by
  unfold adaptive_avg_pool2d_backward_out_cpu_template
  cases hfind : (List.range' 1 (go.dim - 1)).find?
      (fun i => go.shape.getD i 0 = 0) with
  | some j =>
    have hjmem := List.mem_of_find?_eq_some hfind
    rw [List.mem_range'_1] at hjmem
    have hjp : go.shape.getD j 0 = 0 := by
      have := List.find?_some hfind
      simpa using this
    exact ⟨fun _ => Or.inl ⟨j, by omega, by omega, hjp⟩, fun _ => ⟨_, rfl⟩⟩
  | none =>
    have hnone : ¬ ∃ i, 1 ≤ i ∧ i < go.dim ∧ go.shape.getD i 0 = 0 := by
      rintro ⟨i, h1, h2, h3⟩
      have hmem : i ∈ List.range' 1 (go.dim - 1) := by
        rw [List.mem_range'_1]
        omega
      have := List.find?_eq_none.1 hfind i hmem
      simp only [decide_eq_true_eq] at this
      exact this h3
    by_cases hrank : ¬(go.dim = 3 ∨ go.dim = 4)
    · rw [if_pos hrank]
      exact ⟨fun _ => Or.inr (Or.inl hrank), fun _ => ⟨_, rfl⟩⟩
    · rw [if_neg hrank]
      by_cases hdt1 : input.dtype ≠ go.dtype
      · rw [if_pos hdt1]
        exact ⟨fun _ => Or.inr (Or.inr (Or.inl hdt1)), fun _ => ⟨_, rfl⟩⟩
      · rw [if_neg hdt1]
        by_cases hdt2 : input.dtype ≠ gi.dtype
        · rw [if_pos hdt2]
          exact ⟨fun _ => Or.inr (Or.inr (Or.inr hdt2)), fun _ => ⟨_, rfl⟩⟩
        · rw [if_neg hdt2]
          have hres : gi.resize_ input.sizes input.suggest_memory_format =
              .ok
                { gi with
                    shape := input.shape
                    strides := stridesFor input.memFormat input.shape
                    memFormat := input.memFormat } :=
            Tensor.resize_natCast gi input.shape input.memFormat
          rw [hres]
          constructor
          · rintro ⟨e, he⟩
            simp at he
          · rintro (h | h | h | h)
            · exact absurd h hnone
            · exact absurd h hrank
            · exact absurd h hdt1
            · exact absurd h hdt2

/-- Failure characterization of the forward template: the call errors exactly when
the output-size list does not have two elements, the input's rank is not 3 or 4, a
trailing spatial dimension is empty, the dtypes disagree, or (via the resize
contract) the output-size list contains a negative element. -/
theorem fwd_error_iff (k : Tensor → Tensor → List Int → List ℚ)
    (output input : Tensor) (os : List Int) :
    (∃ e, (adaptive_avg_pool2d_out_cpu_template k output input os).res = .error e) ↔
      (os.length ≠ 2 ∨ ¬(input.dim = 3 ∨ input.dim = 4) ∨
       input.sizeAt (-2) = 0 ∨ input.sizeAt (-1) = 0 ∨
       input.dtype ≠ output.dtype ∨ ∃ x ∈ os, x < 0) := by
  unfold adaptive_avg_pool2d_out_cpu_template
  by_cases h1 : os.length ≠ 2
  · rw [if_pos h1]
    exact ⟨fun _ => Or.inl h1, fun _ => ⟨_, rfl⟩⟩
  · rw [if_neg h1]
    by_cases h2 : ¬(input.dim = 3 ∨ input.dim = 4)
    · rw [if_pos h2]
      exact ⟨fun _ => Or.inr (Or.inl h2), fun _ => ⟨_, rfl⟩⟩
    · rw [if_neg h2]
      by_cases h3 : input.sizeAt (-2) = 0
      · rw [if_pos h3]
        exact ⟨fun _ => Or.inr (Or.inr (Or.inl h3)), fun _ => ⟨_, rfl⟩⟩
      · rw [if_neg h3]
        by_cases h4 : input.sizeAt (-1) = 0
        · rw [if_pos h4]
          exact ⟨fun _ => Or.inr (Or.inr (Or.inr (Or.inl h4))), fun _ => ⟨_, rfl⟩⟩
        · rw [if_neg h4]
          by_cases h5 : input.dtype ≠ output.dtype
          · rw [if_pos h5]
            exact ⟨fun _ => Or.inr (Or.inr (Or.inr (Or.inr (Or.inl h5)))),
              fun _ => ⟨_, rfl⟩⟩
          · rw [if_neg h5]
            obtain ⟨a, b, rfl⟩ := list_len2 (not_not.mp h1)
            simp only [List.getD_cons_zero, List.getD_cons_succ]
            by_cases hneg : a < 0 ∨ b < 0
            · have hmem : ∃ x ∈ [a, b], x < 0 := by
                rcases hneg with h | h
                · exact ⟨a, by simp, h⟩
                · exact ⟨b, by simp, h⟩
              rcases not_not.mp h2 with hd | hd
              · rw [if_pos hd]
                unfold Tensor.resize_
                rw [if_neg ?hc3]
                case hc3 =>
                  simp only [List.all_cons, List.all_nil, Bool.and_eq_true,
                    decide_eq_true_eq, and_true]
                  rintro ⟨-, ha, hb⟩
                  rcases hneg with h | h <;> omega
                exact ⟨fun _ => Or.inr (Or.inr (Or.inr (Or.inr (Or.inr hmem)))),
                  fun _ => ⟨_, rfl⟩⟩
              · rw [if_neg (show ¬ input.dim = 3 by omega)]
                unfold Tensor.resize_
                rw [if_neg ?hc4]
                case hc4 =>
                  simp only [List.all_cons, List.all_nil, Bool.and_eq_true,
                    decide_eq_true_eq, and_true]
                  rintro ⟨-, -, ha, hb⟩
                  rcases hneg with h | h <;> omega
                exact ⟨fun _ => Or.inr (Or.inr (Or.inr (Or.inr (Or.inr hmem)))),
                  fun _ => ⟨_, rfl⟩⟩
            · push_neg at hneg
              obtain ⟨ha, hb⟩ := hneg
              have ha' : a = ((a.toNat : ℕ) : Int) := (Int.toNat_of_nonneg ha).symm
              have hb' : b = ((b.toNat : ℕ) : Int) := (Int.toNat_of_nonneg hb).symm
              constructor
              · rintro ⟨e, he⟩
                exfalso
                rcases not_not.mp h2 with hd | hd
                · rw [if_pos hd, ha', hb'] at he
                  have hl : [(input.sizeAt (-3) : Int), ((a.toNat : ℕ) : Int),
                      ((b.toNat : ℕ) : Int)] =
                      [input.sizeAt (-3), a.toNat, b.toNat].map Int.ofNat := by
                    simp [Int.ofNat_eq_natCast]
                  rw [hl, Tensor.resize_natCast] at he
                  dsimp only at he
                  split at he <;> exact Except.noConfusion he
                · rw [if_neg (show ¬ input.dim = 3 by omega), ha', hb'] at he
                  have hl : [(input.sizeAt 0 : Int), (input.sizeAt (-3) : Int),
                      ((a.toNat : ℕ) : Int), ((b.toNat : ℕ) : Int)] =
                      [input.sizeAt 0, input.sizeAt (-3), a.toNat, b.toNat].map
                        Int.ofNat := by
                    simp [Int.ofNat_eq_natCast]
                  rw [hl, Tensor.resize_natCast] at he
                  dsimp only at he
                  split at he <;> exact Except.noConfusion he
              · rintro (h | h | h | h | h | h)
                · exact absurd h h1
                · exact absurd h h2
                · exact absurd h h3
                · exact absurd h h4
                · exact absurd h h5
                · obtain ⟨x, hx, hlt⟩ := h
                  simp only [List.mem_cons, List.not_mem_nil, or_false] at hx
                  rcases hx with rfl | rfl <;> omega

/-- C4 (amended): the forward and backward templates fail exactly when — forward:
output_size does not have exactly 2 elements, the input's rank is neither 3 nor 4, a
trailing spatial dimension of the input is zero-sized, the input/output dtypes
differ, or output_size contains a negative element (rejected when resizing);
backward: some non-batch dimension of grad_output is zero-sized, grad_output's rank
is neither 3 nor 4, or the input/grad_output or input/grad_input dtypes differ.  A
dtype mismatch is never silently coerced. -/
theorem pool_failure_characterization :
    (∀ (k : Tensor → Tensor → List Int → List ℚ) (output input : Tensor)
        (os : List Int),
      (∃ e, (adaptive_avg_pool2d_out_cpu_template k output input os).res
          = .error e) ↔
        (os.length ≠ 2 ∨ ¬(input.dim = 3 ∨ input.dim = 4) ∨
         input.sizeAt (-2) = 0 ∨ input.sizeAt (-1) = 0 ∨
         input.dtype ≠ output.dtype ∨ ∃ x ∈ os, x < 0)) ∧
    (∀ (bk : Tensor → Tensor → List ℚ) (gi go input : Tensor),
      (∃ e, (adaptive_avg_pool2d_backward_out_cpu_template bk gi go input).res
          = .error e) ↔
        ((∃ i, 1 ≤ i ∧ i < go.dim ∧ go.shape.getD i 0 = 0) ∨
         ¬(go.dim = 3 ∨ go.dim = 4) ∨
         input.dtype ≠ go.dtype ∨ input.dtype ≠ gi.dtype)) :=
  ⟨fwd_error_iff, bwd_error_iff⟩

/-- C4 counterexample: a backward call on which none of the claim's four failure
conditions holds — both tensors have rank 4, every trailing spatial size is
non-zero, and all three dtypes agree — yet the operation fails, because the backward
validation also rejects the zero-sized channel dimension of grad_output. -/
theorem pool_failure_characterization_counterexample :
    cexIn.dim = 4 ∧ cexGo.dim = 4 ∧
    cexIn.sizeAt (-2) ≠ 0 ∧ cexIn.sizeAt (-1) ≠ 0 ∧
    cexGo.sizeAt (-2) ≠ 0 ∧ cexGo.sizeAt (-1) ≠ 0 ∧
    cexIn.dtype = cexGo.dtype ∧ cexIn.dtype = (emptyLike0 cexIn).dtype ∧
    (adaptive_avg_pool2d_backward_out_cpu_template bkZero (emptyLike0 cexIn) cexGo
        cexIn).res = .error (.emptyDimBwd 1 [2, 0, 3, 3]) := by
  decide

/-- C6 counterexample: the `Into` forward entry point called with a negative
output-size element but also a mismatching output dtype raises the dtype-mismatch
error, which is not a shape-contract violation. -/
theorem negative_output_size_counterexample :
    (adaptive_avg_pool2d_out_cpu kZero sampleIn3 [-1, 1]
        { emptyLike0 sampleIn3 with dtype := .Double }).res =
      .error (.dtypeMismatch .Float .Double) ∧
    (PoolErr.dtypeMismatch .Float .Double).isShapeViolation = false := by
  decide

/-- C6 (amended): a negative element in output_size always makes the forward
operation fail.  Via the dispatching entry point `adaptive_avg_pool2d_symint` the
raised error is always a shape-contract violation; via the `Into` entry point
`adaptive_avg_pool2d_out_cpu` the error is a shape-contract violation whenever the
input and output dtypes agree. -/
theorem negative_output_size_raises :
    (∀ (mk gen : Tensor → List Int → Except PoolErr Tensor) (input : Tensor)
        (os : List Int), (∃ x ∈ os, x < 0) →
      ∃ e, adaptive_avg_pool2d_symint mk gen input os = .error e ∧
        e.isShapeViolation = true) ∧
    (∀ (k : Tensor → Tensor → List Int → List ℚ) (input output : Tensor)
        (os : List Int), (∃ x ∈ os, x < 0) →
      ∃ e, (adaptive_avg_pool2d_out_cpu k input os output).res = .error e ∧
        (input.dtype = output.dtype → e.isShapeViolation = true)) := by
  constructor
  · rintro mk gen input os ⟨x, hmem, hneg⟩
    unfold adaptive_avg_pool2d_symint
    by_cases h1 : os.length ≠ 2
    · rw [if_pos h1]
      exact ⟨_, rfl, rfl⟩
    · rw [if_neg h1]
      obtain ⟨a, b, rfl⟩ := list_len2 (not_not.mp h1)
      have hx : a < 0 ∨ b < 0 := by
        simp only [List.mem_cons, List.not_mem_nil, or_false] at hmem
        rcases hmem with rfl | rfl
        · exact Or.inl hneg
        · exact Or.inr hneg
      rw [if_pos ?hcnn]
      case hcnn =>
        simp only [List.getD_cons_zero, List.getD_cons_succ]
        rintro ⟨ha, hb⟩
        rcases hx with h | h <;> omega
      exact ⟨_, rfl, rfl⟩
  · rintro k input output os ⟨x, hmem, hneg⟩
    unfold adaptive_avg_pool2d_out_cpu adaptive_avg_pool2d_out_cpu_template
    by_cases h1 : os.length ≠ 2
    · rw [if_pos h1]
      exact ⟨_, rfl, fun _ => rfl⟩
    · rw [if_neg h1]
      obtain ⟨a, b, rfl⟩ := list_len2 (not_not.mp h1)
      have hx : a < 0 ∨ b < 0 := by
        simp only [List.mem_cons, List.not_mem_nil, or_false] at hmem
        rcases hmem with rfl | rfl
        · exact Or.inl hneg
        · exact Or.inr hneg
      by_cases h2 : ¬(input.dim = 3 ∨ input.dim = 4)
      · rw [if_pos h2]
        exact ⟨_, rfl, fun _ => rfl⟩
      · rw [if_neg h2]
        by_cases h3 : input.sizeAt (-2) = 0
        · rw [if_pos h3]
          exact ⟨_, rfl, fun _ => rfl⟩
        · rw [if_neg h3]
          by_cases h4 : input.sizeAt (-1) = 0
          · rw [if_pos h4]
            exact ⟨_, rfl, fun _ => rfl⟩
          · rw [if_neg h4]
            by_cases h5 : input.dtype ≠ output.dtype
            · rw [if_pos h5]
              exact ⟨_, rfl, fun hdt => absurd hdt h5⟩
            · rw [if_neg h5]
              simp only [List.getD_cons_zero, List.getD_cons_succ]
              rcases not_not.mp h2 with hd | hd
              · rw [if_pos hd]
                unfold Tensor.resize_
                rw [if_neg ?hcc1]
                case hcc1 =>
                  simp only [List.all_cons, List.all_nil, Bool.and_eq_true,
                    decide_eq_true_eq, and_true]
                  rintro ⟨-, ha, hb⟩
                  rcases hx with h | h <;> omega
                exact ⟨_, rfl, fun _ => rfl⟩
              · rw [if_neg (show ¬ input.dim = 3 by omega)]
                unfold Tensor.resize_
                rw [if_neg ?hcc2]
                case hcc2 =>
                  simp only [List.all_cons, List.all_nil, Bool.and_eq_true,
                    decide_eq_true_eq, and_true]
                  rintro ⟨-, -, ha, hb⟩
                  rcases hx with h | h <;> omega
                exact ⟨_, rfl, fun _ => rfl⟩

/-- C6 witness: the dispatching entry point on output size [-1, 2] raises a
shape-contract violation. -/
theorem negative_output_size_raises_witness :
    ∃ e, adaptive_avg_pool2d_symint backendId backendId sampleIn3 [-1, 2]
        = .error e ∧ e.isShapeViolation = true :=
  negative_output_size_raises.1 backendId backendId sampleIn3 [-1, 2]
    ⟨-1, by decide, by decide⟩

/-- C2: for every non-quantized, non-mkldnn, non-xpu input of rank 3 or 4 (with the
channels-last tag only on rank-4 tensors, as `suggest_memory_format` guarantees)
and requested output size exactly 1x1, the dispatcher returns the arithmetic mean
of the input over its two trailing spatial axes with those axes kept at size 1; for
a rank-4 channels-last input the result additionally has shape [N, C, 1, 1] with
stride pattern [C, 1, C, C] instead of the default contiguous strides, reusing the
mean's element storage unchanged (no copy). -/
theorem adaptive_avg_pool2d_1x1_fast_path
    (mk gen : Tensor → List Int → Except PoolErr Tensor) (input : Tensor)
    (hq : input.quantized = false) (hm : input.mkldnn = false)
    (hx : input.xpu = false)
    (_hdim : input.dim = 3 ∨ input.dim = 4)
    (hcl : input.memFormat = .ChannelsLast → input.dim = 4) :
    ∃ out, adaptive_avg_pool2d_symint mk gen input [1, 1] = .ok out ∧
      out.data = input.meanHW.data ∧
      out.shape = input.shape.take (input.dim - 2) ++ [1, 1] ∧
      (input.memFormat = .ChannelsLast →
        out.shape = [input.sizeAt 0, input.sizeAt 1, 1, 1] ∧
        out.strides = [input.sizeAt 1, 1, input.sizeAt 1, input.sizeAt 1]) ∧
      (input.memFormat ≠ .ChannelsLast → out = input.meanHW) := by
  unfold adaptive_avg_pool2d_symint
  rw [if_neg (by simp : ¬ ([1, 1] : List Int).length ≠ 2)]
  rw [if_neg ?hnn]
  case hnn => decide
  rw [if_neg (by simp [hm])]
  rw [if_pos ⟨hq, rfl, rfl, hx⟩]
  by_cases hclq : input.suggest_memory_format = MemoryFormat.ChannelsLast
  · rw [if_pos hclq]
    have hd4 : input.dim = 4 := hcl hclq
    obtain ⟨n, c, h, w, hsh⟩ := list_len4 hd4
    refine ⟨_, rfl, rfl, ?_, fun _ => ⟨rfl, rfl⟩, ?_⟩
    · show ([input.sizeAt 0, input.sizeAt 1, 1, 1] : List ℕ) =
        input.shape.take (input.dim - 2) ++ [1, 1]
      simp [Tensor.sizeAt, Tensor.dim, hsh]
    · intro hne
      exact absurd hclq hne
  · rw [if_neg hclq]
    refine ⟨_, rfl, rfl, rfl, ?_, fun _ => rfl⟩
    intro hcl2
    exact absurd hcl2 hclq

/-- C2 witness: a concrete rank-4 channels-last call through the fast path: success,
mean data, kept spatial axes, and the channels-last stride pattern. -/
theorem adaptive_avg_pool2d_1x1_fast_path_witness :
    ∃ out, adaptive_avg_pool2d_symint backendId backendId sampleCL4 [1, 1]
        = .ok out ∧
      out.data = sampleCL4.meanHW.data ∧
      out.shape = sampleCL4.shape.take (sampleCL4.dim - 2) ++ [1, 1] ∧
      (sampleCL4.memFormat = .ChannelsLast →
        out.shape = [sampleCL4.sizeAt 0, sampleCL4.sizeAt 1, 1, 1] ∧
        out.strides = [sampleCL4.sizeAt 1, 1, sampleCL4.sizeAt 1,
          sampleCL4.sizeAt 1]) ∧
      (sampleCL4.memFormat ≠ .ChannelsLast → out = sampleCL4.meanHW) :=
  adaptive_avg_pool2d_1x1_fast_path backendId backendId sampleCL4 rfl rfl rfl
    (Or.inr rfl) (fun _ => rfl)
